import Mathlib

/-!
Verification of the Job-Search repository.

Shallow embedding of `scripts/fetch_jobs.py`, `scripts/step3_generate_artifacts.py`
and `scripts/track_stats.py`.  Python strings are modelled as lists of characters
(`Str`).  Python semantics modelled explicitly: `str.strip`, `str.splitlines`,
`str.split`, `str.lower` (ASCII case range; the sources' phrase constants are all
ASCII), the regex `\s+` collapse of `normalize`, the word-boundary regex
`\b...\b` of `is_intern_role`, and the apply-link regex
`\((https?://[^)]+)\)` of the digest parser.  The floating-point expression
`int(min(100, (hits / 10) * 80))` of `match_score` is modelled by the exact
integer `min 100 (8 * hits)`: for every hit count the double-precision product
rounds to the exact integer `8 * hits` (capped), so the two agree on all inputs.
External HTTP collaborators (GitHub issue API, job-page fetch) are black-box
oracles passed as parameters, as the specification scopes them out.
-/

set_option maxRecDepth 100000

namespace JobSearch

set_option maxHeartbeats 2000000 in
/-- Python strings, modelled as lists of characters. -/
abbrev Str := List Char

/-- Whitespace characters of Python `str.strip()` and the regex `\s` (ASCII range). -/
def isPySpace (c : Char) : Bool :=
  c == ' ' || c == '\t' || c == '\n' || c == '\x0b' || c == '\x0c' || c == '\r'

/-- Characters at which Python `str.splitlines()` breaks lines. -/
def isPyBreak (c : Char) : Bool :=
  c == '\n' || c == '\r' || c == '\x0b' || c == '\x0c' ||
  c == '\x1c' || c == '\x1d' || c == '\x1e' || c == '\x85' ||
  c == '\u2028' || c == '\u2029'

/-- ASCII lowercasing of one character, modelling Python `str.lower()`. -/
def lowerChar (c : Char) : Char :=
  if 'A' ≤ c ∧ c ≤ 'Z' then Char.ofNat (c.toNat + 32) else c

/-- Python `s.lower()`. -/
def lowerL (s : Str) : Str := s.map lowerChar

/-- `startsWithL p s` : `s` starts with `p` (Python `s.startswith(p)`). -/
def startsWithL : Str → Str → Bool
  | [], _ => true
  | _ :: _, [] => false
  | n :: ns, h :: hs => n == h && startsWithL ns hs

/-- Python substring test `needle in hay`. -/
def occurs (needle : Str) : Str → Bool
  | [] => startsWithL needle []
  | c :: t => startsWithL needle (c :: t) || occurs needle t

/-- Left half of Python `str.strip()`. -/
def trimL (s : Str) : Str := s.dropWhile isPySpace

/-- Right half of Python `str.strip()`. -/
def trimR (s : Str) : Str := (s.reverse.dropWhile isPySpace).reverse

/-- Python `s.strip()` (no arguments: strips whitespace). -/
def pyStrip (s : Str) : Str := trimR (trimL s)

/-- Python `s.strip("|")` : strips `'|'` characters from both ends. -/
def stripPipes (s : Str) : Str :=
  ((s.dropWhile (· == '|')).reverse.dropWhile (· == '|')).reverse

/-- Python `s.split(sep)` for a one-character separator. -/
def splitOnChar (sep : Char) : Str → List Str
  | [] => [[]]
  | c :: t =>
    if c == sep then [] :: splitOnChar sep t
    else
      match splitOnChar sep t with
      | [] => [[c]]
      | h :: r => (c :: h) :: r

/-- Worker for `splitlines`: `acc` holds the current line reversed; a
`"\r\n"` pair counts as a single break. -/
def splitlinesGo (acc : Str) : Str → List Str
  | [] => [acc.reverse]
  | c :: rest =>
    if isPyBreak c then
      if c == '\r' then
        match rest with
        | [] => [acc.reverse]
        | d :: rest2 =>
          if d == '\n' then
            acc.reverse :: (if rest2.isEmpty then [] else splitlinesGo [] rest2)
          else acc.reverse :: splitlinesGo [] (d :: rest2)
      else
        acc.reverse :: (if rest.isEmpty then [] else splitlinesGo [] rest)
    else splitlinesGo (c :: acc) rest

/-- Python `s.splitlines()` (a trailing break yields no extra empty line and
`"".splitlines() == []`). -/
def splitlines : Str → List Str
  | [] => []
  | c :: rest => splitlinesGo [] (c :: rest)

/-- Python `sep.join(parts)`. -/
def joinSep (sep : Str) : List Str → Str
  | [] => []
  | [x] => x
  | x :: y :: rest => x ++ sep ++ joinSep sep (y :: rest)

/-- Collapse of each maximal whitespace run to a single space:
the `re.sub(r"\s+", " ", ·)` step of `normalize`. -/
def collapseWs : Str → Str
  | [] => []
  | [c] => [if isPySpace c then ' ' else c]
  | c :: d :: rest =>
    if isPySpace c && isPySpace d then collapseWs (d :: rest)
    else (if isPySpace c then ' ' else c) :: collapseWs (d :: rest)

/-- `fetch_jobs.normalize`: `re.sub(r"\s+", " ", (s or "").strip()).lower()`. -/
def normalize (s : Str) : Str := lowerL (collapseWs (pyStrip s))

/-- `fetch_jobs.contains_any`: any needle, lowercased, occurs in the lowercased hay. -/
def contains_any (hay : Str) (needles : List Str) : Bool :=
  needles.any (fun n => occurs (lowerL n) (lowerL hay))

/-- Decimal digit character of `n % 10`. -/
def digitChar (n : Nat) : Char := Char.ofNat (48 + n % 10)

/-- Fuelled decimal rendering worker. -/
def natStrAux : Nat → Nat → Str
  | 0, _ => []
  | fuel + 1, n =>
    if n < 10 then [digitChar n]
    else natStrAux fuel (n / 10) ++ [digitChar (n % 10)]

/-- Decimal rendering of a natural number, as Python `str(n)` / f-string
interpolation produces for the nonnegative integers the pipeline emits. -/
def natStr (n : Nat) : Str := natStrAux (n + 1) n

/-- The canonical `Job` dataclass of `fetch_jobs.py`. -/
structure Job where
  id : Str
  title : Str
  location : Str
  team : Str
  company : Str
  source : Str
  url : Str
  description : Str
deriving DecidableEq

/-- `INTERN_POSITIVE` from `fetch_jobs.py`. -/
def INTERN_POSITIVE : List Str :=
  [("intern").toList, ("internship").toList, ("co-op").toList, ("coop").toList,
   ("student").toList, ("graduate intern").toList, ("summer intern").toList,
   ("fall intern").toList, ("spring intern").toList, ("year-round").toList]

/-- `INTERN_NEGATIVE` from `fetch_jobs.py`. -/
def INTERN_NEGATIVE : List Str :=
  [("senior").toList, ("sr").toList, ("staff").toList, ("principal").toList,
   ("lead").toList, ("manager").toList, ("director").toList, ("head").toList,
   ("vp").toList, ("vice president").toList, ("architect").toList,
   ("distinguished").toList]

/-- Word characters of the regex `\w` (ASCII range). -/
def isWordChar (c : Char) : Bool :=
  ('a' ≤ c && c ≤ 'z') || ('A' ≤ c && c ≤ 'Z') || ('0' ≤ c && c ≤ '9') || c == '_'

/-- Word-ness of the character on one side of a position; the string edge counts
as a non-word side. -/
def isWordOpt : Option Char → Bool
  | none => false
  | some c => isWordChar c

/-- The regex `\b` holds between two sides iff exactly one side is a word character. -/
def boundaryOk (a b : Option Char) : Bool := isWordOpt a != isWordOpt b

/-- `re.search(rf"\b{re.escape(k)}\b", ·)` succeeding at the current position,
where `prev` is the character just before the position. -/
def wordMatchAt (k : Str) (prev : Option Char) (s : Str) : Bool :=
  startsWithL k s &&
  boundaryOk prev (k.head?.orElse fun _ => s.head?) &&
  boundaryOk (k.getLast?.orElse fun _ => prev) ((s.drop k.length).head?)

/-- Scan of all positions for a whole-word match. -/
def wordOccurs (k : Str) : Option Char → Str → Bool
  | prev, [] => wordMatchAt k prev []
  | prev, c :: rest => wordMatchAt k prev (c :: rest) || wordOccurs k (some c) rest

/-- `re.search(rf"\b{re.escape(k)}\b", t)` is not `None`. -/
def hasWordMatch (k t : Str) : Bool := wordOccurs k none t

/-- `fetch_jobs.is_intern_role`. -/
def is_intern_role (title : Str) : Bool :=
  let t := lowerL title
  if !INTERN_POSITIVE.any (fun k => occurs k t) then false
  else if INTERN_NEGATIVE.any (fun k => hasWordMatch k t) then false
  else true

/-- `no_patterns` from `fetch_jobs.sponsorship_status`. -/
def no_patterns : List Str :=
  [("no sponsorship").toList, ("unable to sponsor").toList, ("cannot sponsor").toList,
   ("will not sponsor").toList, ("not sponsor").toList, ("without sponsorship").toList,
   ("no visa sponsorship").toList, ("do not sponsor").toList,
   ("not eligible for sponsorship").toList,
   ("us citizen only").toList, ("u.s. citizen only").toList,
   ("must be a u.s. citizen").toList,
   ("must be us citizen").toList, ("security clearance required").toList]

/-- `yes_patterns` from `fetch_jobs.sponsorship_status`. -/
def yes_patterns : List Str :=
  [("visa sponsorship").toList, ("sponsorship available").toList,
   ("eligible for sponsorship").toList,
   ("will sponsor").toList, ("accept cpt").toList, ("accept opt").toList,
   ("accept h1b").toList, ("can sponsor").toList]

/-- `fetch_jobs.sponsorship_status`. -/
def sponsorship_status (text : Str) : Str :=
  let t := normalize text
  if no_patterns.any (fun p => occurs p t) then ("NO").toList
  else if yes_patterns.any (fun p => occurs p t) then ("YES").toList
  else ("UNKNOWN").toList

/-- The scoring text `f"{job.title}\n{job.team}\n{job.description}"`. -/
def jobText (job : Job) : Str :=
  job.title ++ '\n' :: job.team ++ '\n' :: job.description

/-- Hit counting loop of `match_score`: one hit per distinct, nonempty,
normalized keyword phrase occurring in `t` (`seen` is the dedup set). -/
def hitsGo (t : Str) (seen : List Str) : List Str → Nat
  | [] => 0
  | kw :: rest =>
    if !(normalize kw).isEmpty && occurs (normalize kw) t
        && !seen.contains (normalize kw)
    then 1 + hitsGo t (normalize kw :: seen) rest
    else hitsGo t seen rest

/-- Distinct normalized keyword hits of a job. -/
def hitsCount (job : Job) (keyword_phrases : List Str) : Nat :=
  hitsGo (normalize (jobText job)) [] keyword_phrases

/-- The score curve of `match_score`.  Python computes the first step as
`int(min(100, (hits / 10) * 80))` in floats; the product rounds to exactly
`8 * hits` for every hit count, so the exact form is used. -/
def scoreOfHits (hits : Nat) : Nat :=
  let score := min 100 (8 * hits)
  let score := if hits ≥ 15 then 95 else score
  if hits ≥ 20 then 100 else score

/-- `fetch_jobs.match_score`. -/
def match_score (job : Job) (keyword_phrases : List Str) : Nat :=
  scoreOfHits (hitsCount job keyword_phrases)

/-- `fetch_jobs.is_internship`. -/
def is_internship (job : Job) (internship_keywords : List Str) : Bool :=
  contains_any job.title internship_keywords ||
    occurs ("intern").toList (lowerL job.description)

/-- `fetch_jobs.location_ok`. -/
def location_ok (job : Job) (locations : List Str) : Bool :=
  if locations.isEmpty then true
  else
    locations.any (fun x => occurs (normalize x) (normalize job.location)) ||
    (occurs ("remote").toList (normalize job.location) &&
      locations.any (fun x => occurs ("remote").toList (normalize x)))

/-- One ranked candidate: the `(job, score, sponsor)` tuples of `main`.
(Scores come from `match_score`, hence are nonnegative.) -/
structure Cand where
  job : Job
  score : Nat
  sponsor : Str
deriving DecidableEq

/-- `'|'`-sanitization applied by the digest builder: `.replace("|", " ")`. -/
def sanitizeCell (s : Str) : Str := s.map (fun c => if c == '|' then ' ' else c)

/-- One data row of the digest table, without its trailing newline:
`f"| {score} | {sponsor} | {title} | {company} | {source} | {loc} | [Apply]({url}) |"`
with title, company, source and location `'|'`-sanitized. -/
def rowCore (r : Cand) : Str :=
  ("| ").toList ++ natStr r.score ++ (" | ").toList ++ r.sponsor ++
  (" | ").toList ++ sanitizeCell r.job.title ++
  (" | ").toList ++ sanitizeCell r.job.company ++
  (" | ").toList ++ sanitizeCell r.job.source ++
  (" | ").toList ++ sanitizeCell r.job.location ++
  (" | [Apply](").toList ++ r.job.url ++ (") |").toList

/-- One rendered data row line. -/
def rowLine (r : Cand) : Str := rowCore r ++ ['\n']

/-- `fetch_jobs.build_digest_md`.  `now` is the `datetime.now` timestamp string;
`minScore` and `maxResults` are `CONFIG["min_match_score"]` and
`CONFIG["max_results"]`. -/
def build_digest_md (now : Str) (minScore maxResults : Nat) (rows : List Cand) : Str :=
  ("# Daily AI Internship Digest\n\n").toList ++
  ("Generated: **").toList ++ now ++ ("**\n\n").toList ++
  ("Filters: score ≥ **").toList ++ natStr minScore ++
  ("**, max **").toList ++ natStr maxResults ++
  ("**, locations: **Remote US + Texas**, sponsorship: **reject if explicit NO; silent = review**\n\n").toList ++
  ("---\n\n").toList ++
  ("| Score | Sponsorship | Title | Company | Source | Location | Link |\n").toList ++
  ("|---:|:---:|---|---|---|---|---|\n").toList ++
  (rows.map rowLine).flatten ++
  ("\n---\n\n").toList ++
  ("### Notes\n").toList ++
  ("- **Sponsorship** is inferred from posting text. If it says **NO sponsorship / US citizen only / clearance required**, it is rejected.\n").toList ++
  ("- If sponsorship is **silent**, it is marked **UNKNOWN** and kept for review.\n").toList

/-- A row recovered by the digest parser. -/
structure ParsedRow where
  score : Str
  sponsorship : Str
  title : Str
  company : Str
  source : Str
  location : Str
  apply_url : Option Str
deriving DecidableEq

/-- The header-line test of the parser:
`ln.startswith("|") and "Title" in ln and "Company" in ln and "Link" in ln`. -/
def isHeaderLine (l : Str) : Bool :=
  startsWithL (("|").toList) l && occurs (("Title").toList) l &&
  occurs (("Company").toList) l && occurs (("Link").toList) l

/-- `[ln.strip() for ln in md.splitlines() if ln.strip()]`. -/
def pyLines (md : Str) : List Str :=
  ((splitlines md).map pyStrip).filter (fun l => !l.isEmpty)

/-- Locate the header line; return the lines after skipping it and the
separator line (`lines[table_start+2:]`). -/
def findTableTail : List Str → Option (List Str)
  | [] => none
  | l :: rest => if isHeaderLine l then some (rest.drop 1) else findTableTail rest

/-- Tail step of the apply-link regex: after the scheme, a nonempty run of
non-`')'` characters must follow, closed by `')'`; the capture is the scheme
plus the run. -/
def urlTailCheck (pre rest : Str) : Option Str :=
  if (rest.takeWhile (fun c => !(c == ')'))).isEmpty then none
  else if (rest.drop (rest.takeWhile (fun c => !(c == ')'))).length).head? == some ')'
  then some (pre ++ rest.takeWhile (fun c => !(c == ')')))
  else none

/-- Attempt of the regex body `https?://[^)]+\)` right after a `'('`. -/
def tryUrlAt (s : Str) : Option Str :=
  if startsWithL (("https://").toList) s then
    urlTailCheck (("https://").toList) (s.drop 8)
  else if startsWithL (("http://").toList) s then
    urlTailCheck (("http://").toList) (s.drop 7)
  else none

/-- `re.search(r"\((https?://[^)]+)\)", cell)`: leftmost match, returning the
captured group. -/
def findUrl : Str → Option Str
  | [] => none
  | c :: rest =>
    if c == '(' then
      match tryUrlAt rest with
      | some u => some u
      | none => findUrl rest
    else findUrl rest

/-- The data-row loop of `parse_jobs_from_markdown_table`: stop at the first
line not starting with `"|"`; split each row on `"|"`; rows with fewer than 7
columns are skipped (the catch-all branch is exactly `len(cols) < 7`). -/
def parseDataRows : List Str → List ParsedRow
  | [] => []
  | l :: rest =>
    if startsWithL (("|").toList) l then
      match (splitOnChar '|' (stripPipes l)).map pyStrip with
      | s :: sp :: t :: c :: src :: loc :: link :: _ =>
        ⟨s, sp, t, c, src, loc, findUrl link⟩ :: parseDataRows rest
      | _ => parseDataRows rest
    else []

/-- `step3_generate_artifacts.parse_jobs_from_markdown_table`. -/
def parse_jobs_from_markdown_table (md : Str) : List ParsedRow :=
  match findTableTail (pyLines md) with
  | none => []
  | some rest => parseDataRows rest

/-- What the round-trip claim expects a rendered candidate to parse back to:
fields compared after the renderer's `'|'` sanitization and the parser's cell
trimming; the apply url is absent exactly when the candidate url is empty. -/
def expectedRow (r : Cand) : ParsedRow :=
  ⟨natStr r.score, pyStrip r.sponsor,
   pyStrip (sanitizeCell r.job.title), pyStrip (sanitizeCell r.job.company),
   pyStrip (sanitizeCell r.job.source), pyStrip (sanitizeCell r.job.location),
   if r.job.url.isEmpty then none else some r.job.url⟩

/-- No line-break character occurs in `s`. -/
def noBreakChars (s : Str) : Bool := s.all (fun c => !isPyBreak c)

/-- No `'|'` and no line-break character occurs in `s`. -/
def plainCell (s : Str) : Bool := s.all (fun c => !(c == '|') && !isPyBreak c)

/-- A url the apply-link regex can recover: empty, or an `http(s)://` url with
a nonempty remainder containing no `')'`, `'|'` or line break. -/
def goodUrl (u : Str) : Bool :=
  u.isEmpty ||
  (u.all (fun c => !(c == ')') && !(c == '|') && !isPyBreak c) &&
    ((startsWithL (("http://").toList) u && !(u.drop 7).isEmpty) ||
     (startsWithL (("https://").toList) u && !(u.drop 8).isEmpty)))

/-- Candidate whose rendered row survives the wire format: no line breaks in
the rendered fields, no `'|'` in the (unsanitized) sponsorship cell, and a
recoverable url. -/
def goodCand (r : Cand) : Bool :=
  noBreakChars r.job.title && noBreakChars r.job.company &&
  noBreakChars r.job.source && noBreakChars r.job.location &&
  plainCell r.sponsor && goodUrl r.job.url

/-- `step3_generate_artifacts.MARKER`. -/
def MARKER : Str := ("<!-- STEP3_ARTIFACTS_v1 -->").toList

/-- `step3_generate_artifacts.already_ran`: some existing issue comment body
contains the marker (`comments` is the list the GitHub API returns). -/
def already_ran (comments : List Str) : Bool :=
  comments.any (fun c => occurs MARKER c)

/-- The hint record of `keyword_hints`. -/
structure Hints where
  role_family : Str
  focus : List Str
  tools : List Str
  signals : List Str

/-- The local `has(*words)` helper of `keyword_hints` over lowercased title `t`
and lowercased job description `j`. -/
def hasAny (t j : Str) (ws : List Str) : Bool :=
  ws.any (fun w => occurs w t || occurs w j)

/-- `step3_generate_artifacts.keyword_hints`. -/
def keyword_hints (title jd : Str) : Hints :=
  let t := lowerL title
  let j := lowerL jd
  let role_family :=
    if hasAny t j [("mlops").toList, ("platform").toList, ("infrastructure").toList,
                   ("deployment").toList, ("observability").toList] then ("MLOps").toList
    else if hasAny t j [("research").toList, ("scientist").toList,
                        ("researcher").toList] then ("Research").toList
    else if hasAny t j [("data").toList, ("analytics").toList,
                        ("insights").toList] then ("Data/Applied").toList
    else if hasAny t j [("software").toList, ("engineer").toList, ("backend").toList,
                        ("full stack").toList] then ("AI Engineering").toList
    else ("AI/ML").toList
  let focus :=
    (if hasAny t j [("llm").toList, ("large language").toList, ("rag").toList,
                    ("retrieval").toList, ("prompt").toList]
     then [("LLMs / RAG").toList] else []) ++
    (if hasAny t j [("evaluation").toList, ("benchmark").toList, ("metrics").toList,
                    ("ablation").toList, ("experiments").toList]
     then [("Model evaluation").toList] else []) ++
    (if hasAny t j [("pipelines").toList, ("workflow").toList, ("orchestration").toList,
                    ("airflow").toList, ("prefect").toList, ("dag").toList]
     then [("Pipelines").toList] else []) ++
    (if hasAny t j [("kubernetes").toList, ("docker").toList, ("helm").toList,
                    ("containers").toList]
     then [("Containers").toList] else []) ++
    (if hasAny t j [("aws").toList, ("gcp").toList, ("azure").toList, ("cloud").toList]
     then [("Cloud").toList] else [])
  let tools :=
    (if hasAny t j [("pytorch").toList, ("tensorflow").toList, ("jax").toList]
     then [("PyTorch/TensorFlow/JAX").toList] else []) ++
    (if hasAny t j [("python").toList] then [("Python").toList] else []) ++
    (if hasAny t j [("sql").toList] then [("SQL").toList] else [])
  let signals :=
    (if hasAny t j [("intern").toList, ("internship").toList]
     then [("Internship-friendly").toList] else []) ++
    (if hasAny t j [("remote").toList] then [("Remote").toList] else []) ++
    (if hasAny t j [("sponsor").toList, ("visa").toList, ("cpt").toList,
                    ("opt").toList, ("h1b").toList]
     then [("Visa mention in posting").toList] else [])
  ⟨role_family, focus, tools, signals⟩

/-- The three base bullets of `generate_resume_bullets`. -/
def baseBullets : List Str :=
  [("Built Python-based automation to ingest structured/unstructured data, normalize fields, and produce reliable outputs for downstream workflows.").toList,
   ("Developed repeatable evaluation and debugging routines, validating changes with clear metrics and documenting results for fast iteration.").toList,
   ("Collaborated across engineering stakeholders to translate requirements into implementable technical tasks and deliver working increments.").toList]

/-- The role-family tailored bullets of `generate_resume_bullets`. -/
def tailoredBullets (family : Str) : List Str :=
  if family == ("MLOps").toList then
    [("Implemented lightweight ML/LLM pipeline components with reproducible runs, configurable parameters, and clear logging for troubleshooting.").toList,
     ("Worked with containerized workflows and deployment-minded practices to support reliable iteration across environments (dev → production).").toList,
     ("Instrumented data and model outputs with simple quality checks to reduce regressions and improve observability.").toList]
  else if family == ("Research").toList then
    [("Designed and ran experiments to compare approaches, tracked outcomes, and summarized findings to guide next iterations.").toList,
     ("Implemented prototype components in Python to test model behavior, failure modes, and performance under varied inputs.").toList,
     ("Produced structured write-ups of experiment settings, results, and limitations to support reproducibility.").toList]
  else if family == ("Data/Applied").toList then
    [("Analyzed datasets to identify patterns, validate assumptions, and provide actionable insights for product/engineering decisions.").toList,
     ("Built small data transformations and QA checks to improve data reliability and reduce noisy outputs.").toList,
     ("Created clear summaries of results, assumptions, and risks for stakeholder review.").toList]
  else
    [("Built and integrated application components that consume model outputs safely and reliably, with input validation and deterministic fallbacks.").toList,
     ("Implemented simple retrieval and ranking patterns (where applicable) to improve response quality and reduce irrelevant outputs.").toList,
     ("Improved performance and reliability by profiling bottlenecks and tightening runtime behavior.").toList]

/-- `step3_generate_artifacts.generate_resume_bullets`. -/
def generate_resume_bullets (title company jd : Str) : Str :=
  let hints := keyword_hints title jd
  let bullets := (tailoredBullets hints.role_family).take 2 ++ baseBullets.take 1
  ("**Resume bullets (paste-ready) — ").toList ++ company ++ (" | ").toList ++ title ++
  (":**").toList ++ ('\n' :: joinSep ['\n'] (bullets.map (fun b => ("- ").toList ++ b)))

/-- `step3_generate_artifacts.generate_cover_letter`. -/
def generate_cover_letter (title company jd : Str) : Str :=
  let hints := keyword_hints title jd
  let focus :=
    if hints.focus.isEmpty then ("practical ML/LLM implementation").toList
    else joinSep ((", ").toList) (hints.focus.take 3)
  let tools :=
    if hints.tools.isEmpty then ("Python and modern ML tooling").toList
    else joinSep ((", ").toList) (hints.tools.take 3)
  ("**Cover letter draft — ").toList ++ company ++ (" | ").toList ++ title ++
  (":**\nDear Hiring Team,\n\nI am an M.S. Artificial Intelligence candidate seeking an internship where I can contribute to ").toList ++
  focus ++
  (". I build working systems quickly, iterate based on measurable outcomes, and document decisions so teams can move with confidence.\n\nMy recent work has emphasized ").toList ++
  tools ++
  (", repeatable workflows, and building reliable components that can run in real environments. I am comfortable learning new stacks, collaborating with engineering teams, and shipping incremental improvements under time constraints.\n\nI would welcome the opportunity to support ").toList ++
  company ++ (" as a ").toList ++ title ++
  (" intern and contribute to production-grade ML/AI work.\n\nSincerely,\nEdgar Pfuma").toList

/-- `step3_generate_artifacts.fetch_job_description`: empty url short-circuits to
the empty string; the network fetch and HTML extraction are the black-box
oracle `net`. -/
def fetch_job_description (net : Str → Str) (url : Str) : Str :=
  if url.isEmpty then [] else net url

/-- The per-job section appended by `build_comment`. -/
def jobSection (net : Str → Str) (j : ParsedRow) : List Str :=
  let url := j.apply_url.getD []
  let jd := fetch_job_description net url
  [("---").toList,
   ("### ").toList ++ j.company ++ (" — ").toList ++ j.title,
   (if url.isEmpty then ("- Apply link: (missing)").toList
    else ("- Apply link: ").toList ++ url),
   (if jd.isEmpty then ("- JD captured: No (used robust defaults)").toList
    else ("- JD captured: Yes (excerpted)").toList),
   [],
   generate_resume_bullets j.title j.company jd,
   [],
   generate_cover_letter j.title j.company jd,
   []]

/-- `step3_generate_artifacts.build_comment`: `"\n".join(parts).strip()` with the
marker as first part; `now` is the timestamp string. -/
def build_comment (net : Str → Str) (now : Str) (jobs : List ParsedRow) : Str :=
  let parts :=
    MARKER ::
    (("## Step 3 Artifacts (Auto-generated)\nGenerated: **").toList ++ now ++ ("**\n").toList) ::
    ("This comment contains **paste-ready** resume bullets and a short cover letter draft per job.\n").toList ::
    (jobs.map (jobSection net)).flatten
  pyStrip (joinSep ['\n'] parts)

/-- The fallback comment `main` posts when no jobs table is found in the issue
body. -/
def noTableComment : Str :=
  MARKER ++
  ("\n## Step 3 Artifacts\nI could not find a jobs table in the Issue body. Ensure the digest includes a markdown table with columns including **Title**, **Company**, and an **Apply** link.\n").toList

/-- `step3_generate_artifacts.main`, as the list of comments it posts to the
issue: `comments` are the existing issue comments, `body` the issue body,
`net` the job-page oracle and `now` the timestamp. -/
def step3_main (comments : List Str) (body : Str) (net : Str → Str) (now : Str) :
    List Str :=
  if already_ran comments then []
  else
    let jobs := parse_jobs_from_markdown_table body
    if jobs.isEmpty then [noTableComment]
    else [build_comment net now jobs]

/-- One entry of `daily_counts` in `track_stats.py`. -/
structure DailyCount where
  date : Str
  jobs_found : Int
  source : Str
deriving DecidableEq

/-- The stats record persisted by `track_stats.py` (`by_company` and
`by_source` are JSON objects, modelled as association lists). -/
structure Stats where
  total_jobs_found : Int
  jobs_approved : Int
  applications_generated : Int
  by_company : List (Str × Int)
  by_source : List (Str × Int)
  daily_counts : List DailyCount
deriving DecidableEq

/-- Python `l[-n:]`: the last `n` elements. -/
def lastN (n : Nat) (l : List DailyCount) : List DailyCount := l.drop (l.length - n)

/-- `track_stats.update_stats`: `stats` is the loaded stored record, `today`
the `datetime.utcnow().date().isoformat()` string; the result is the record
written back. -/
def update_stats (stats : Stats) (jobs_found : Int) (source : Str) (today : Str) :
    Stats :=
  { stats with
    total_jobs_found := stats.total_jobs_found + jobs_found,
    daily_counts :=
      lastN 90 (stats.daily_counts ++ [⟨today, jobs_found, source⟩]) }

/-! ### General lemmas about the string model -/

theorem startsWithL_append_self (p x : Str) : startsWithL p (p ++ x) = true := by
  induction p with
  | nil => rfl
  | cons c cs ih => simp [startsWithL, ih]

theorem startsWithL_exists {p s : Str} (h : startsWithL p s = true) :
    ∃ t, s = p ++ t := by
  induction p generalizing s with
  | nil => exact ⟨s, rfl⟩
  | cons c cs ih =>
    cases s with
    | nil => simp [startsWithL] at h
    | cons d ds =>
      simp only [startsWithL, Bool.and_eq_true, beq_iff_eq] at h
      obtain ⟨t, ht⟩ := ih h.2
      exact ⟨t, by rw [ht, h.1]; rfl⟩

theorem occurs_of_startsWithL {p s : Str} (h : startsWithL p s = true) :
    occurs p s = true := by
  cases s <;> simp [occurs, h]

theorem hitsGo_le_snoc (t p : Str) :
    ∀ (kws seen : List Str),
      hitsGo t seen kws ≤ hitsGo t seen (kws ++ [p]) ∧
      hitsGo t seen (kws ++ [p]) ≤ hitsGo t seen kws + 1 := by
  intro kws
  induction kws with
  | nil =>
    intro seen
    simp only [List.nil_append, hitsGo]
    refine ⟨Nat.zero_le _, ?_⟩
    split <;> simp [hitsGo]
  | cons kw rest ih =>
    intro seen
    simp only [List.cons_append, hitsGo]
    split
    · have h1 := ih (normalize kw :: seen)
      simp only [List.append_eq] at h1 ⊢
      omega
    · have h1 := ih seen
      simp only [List.append_eq] at h1 ⊢
      omega

theorem scoreOfHits_closed (h : Nat) :
    scoreOfHits h = if 20 ≤ h then 100 else if 15 ≤ h then 95 else min 100 (8 * h) :=
  rfl

theorem scoreOfHits_mono_step {a b : Nat} (h1 : a ≤ b) (h2 : b ≤ a + 1)
    (h3 : a ≠ 14) : scoreOfHits a ≤ scoreOfHits b := by
  rcases Nat.lt_or_ge a 21 with hlt | hge
  · interval_cases a <;> interval_cases b <;>
      first
      | exact absurd rfl h3
      | decide
  · have ha : a ≥ 20 := by omega
    have hb : b ≥ 20 := by omega
    rw [scoreOfHits_closed, scoreOfHits_closed, if_pos ha, if_pos hb]

/-! ### Claim C2 : score monotonicity under one added matching phrase -/

/-- C2 (amended): extending the keyword list with one additional phrase that
matches the normalized title+team+description text never decreases
`match_score`, provided the original distinct-hit count is not 14 (at 14 a new
matching phrase moves the count to 15, where the curve drops from 100 to 95). -/
theorem c2_match_score_snoc_mono (job : Job) (kws : List Str) (p : Str)
    (_hmatch : occurs (normalize p) (normalize (jobText job)) = true)
    (h14 : hitsCount job kws ≠ 14) :
    match_score job kws ≤ match_score job (kws ++ [p]) := by
  have hb := hitsGo_le_snoc (normalize (jobText job)) p kws []
  exact scoreOfHits_mono_step hb.1 hb.2 h14

/-- C2 counterexample: on a posting whose text matches exactly the 14 supplied
phrases, adding a 15th matching phrase drops the score from 100 to 95, so the
claim as stated (never decreases) is false. -/
theorem c2_counterexample :
    occurs (normalize (("k15").toList))
        (normalize (jobText
          ⟨[], ("T").toList, [], [],  [], [], [],
           ("k01 k02 k03 k04 k05 k06 k07 k08 k09 k10 k11 k12 k13 k14 k15").toList⟩)) = true ∧
    match_score
        ⟨[], ("T").toList, [], [], [], [], [],
         ("k01 k02 k03 k04 k05 k06 k07 k08 k09 k10 k11 k12 k13 k14 k15").toList⟩
        [("k01").toList, ("k02").toList, ("k03").toList, ("k04").toList,
         ("k05").toList, ("k06").toList, ("k07").toList, ("k08").toList,
         ("k09").toList, ("k10").toList, ("k11").toList, ("k12").toList,
         ("k13").toList, ("k14").toList] = 100 ∧
    match_score
        ⟨[], ("T").toList, [], [], [], [], [],
         ("k01 k02 k03 k04 k05 k06 k07 k08 k09 k10 k11 k12 k13 k14 k15").toList⟩
        ([("k01").toList, ("k02").toList, ("k03").toList, ("k04").toList,
          ("k05").toList, ("k06").toList, ("k07").toList, ("k08").toList,
          ("k09").toList, ("k10").toList, ("k11").toList, ("k12").toList,
          ("k13").toList, ("k14").toList] ++ [("k15").toList]) = 95 := by
  refine ⟨by decide, by decide, by decide⟩

/-- C2 witness: the amended monotonicity theorem applied at a concrete input. -/
theorem c2_witness :
    occurs (normalize (("ml").toList))
        (normalize (jobText ⟨[], ("ml intern").toList, [], [], [], [], [], []⟩)) = true ∧
    hitsCount ⟨[], ("ml intern").toList, [], [], [], [], [], []⟩ [] ≠ 14 ∧
    match_score ⟨[], ("ml intern").toList, [], [], [], [], [], []⟩ [] ≤
      match_score ⟨[], ("ml intern").toList, [], [], [], [], [], []⟩ [("ml").toList] := by
  refine ⟨by decide, by decide, ?_⟩
  exact c2_match_score_snoc_mono _ [] (("ml").toList) (by decide) (by decide)

/-! ### Claim C3 : score curve and boundary values -/

/-- C3: `match_score` equals the spec curve
`min(100, floor(h/10 * 80))` overridden to 95 for `h ≥ 15` and to 100 for
`h ≥ 20` (exact arithmetic: `floor(h/10 * 80) = h * 80 / 10`), with the stated
boundary values, and is always at most 100 (it is a natural number, hence
nonnegative). -/
theorem c3_match_score_curve (job : Job) (kws : List Str) :
    (hitsCount job kws = 0 → match_score job kws = 0) ∧
    (hitsCount job kws = 10 → match_score job kws = 80) ∧
    (hitsCount job kws = 15 → match_score job kws = 95) ∧
    (20 ≤ hitsCount job kws → match_score job kws = 100) ∧
    match_score job kws =
      (if 20 ≤ hitsCount job kws then 100
       else if 15 ≤ hitsCount job kws then 95
       else min 100 (hitsCount job kws * 80 / 10)) ∧
    match_score job kws ≤ 100 := by
  have hdiv : hitsCount job kws * 80 / 10 = 8 * hitsCount job kws := by omega
  unfold match_score
  simp only [scoreOfHits_closed]
  set h := hitsCount job kws with hh
  refine ⟨?_, ?_, ?_, ?_, ?_, ?_⟩
  · intro h0; rw [h0]; decide
  · intro h0; rw [h0]; decide
  · intro h0; rw [h0]; decide
  · intro h0
    rw [if_pos h0]
  · rw [hdiv]
  · split
    · exact le_refl 100
    · split
      · decide
      · exact Nat.min_le_left 100 (8 * h)

/-- C3 witness: the curve theorem applied at a concrete posting with zero hits. -/
theorem c3_witness :
    hitsCount ⟨[], [], [], [], [], [], [], []⟩ [] = 0 ∧
    match_score ⟨[], [], [], [], [], [], [], []⟩ [] = 0 := by
  refine ⟨by decide, ?_⟩
  exact (c3_match_score_curve ⟨[], [], [], [], [], [], [], []⟩ []).1 (by decide)

/-! ### Claim C4 : sponsorship classification order -/

/-- C4: `sponsorship_status` returns NO when the normalized text contains any
explicit-rejection phrase (regardless of availability phrases, so a text with
both classifies NO), otherwise YES when it contains an availability phrase,
otherwise UNKNOWN. -/
theorem c4_sponsorship_order (text : Str) :
    ((∃ p ∈ no_patterns, occurs p (normalize text) = true) →
       sponsorship_status text = ("NO").toList) ∧
    ((∀ p ∈ no_patterns, occurs p (normalize text) = false) →
     (∃ p ∈ yes_patterns, occurs p (normalize text) = true) →
       sponsorship_status text = ("YES").toList) ∧
    ((∀ p ∈ no_patterns, occurs p (normalize text) = false) →
     (∀ p ∈ yes_patterns, occurs p (normalize text) = false) →
       sponsorship_status text = ("UNKNOWN").toList) := by
  refine ⟨?_, ?_, ?_⟩
  · intro h
    have hno : no_patterns.any (fun p => occurs p (normalize text)) = true :=
      List.any_eq_true.2 h
    simp [sponsorship_status, hno]
  · intro hno hyes
    have hno' : no_patterns.any (fun p => occurs p (normalize text)) = false := by
      simp only [List.any_eq_false]
      intro p hp
      simp [hno p hp]
    have hyes' : yes_patterns.any (fun p => occurs p (normalize text)) = true :=
      List.any_eq_true.2 hyes
    simp [sponsorship_status, hno', hyes']
  · intro hno hyes
    have hno' : no_patterns.any (fun p => occurs p (normalize text)) = false := by
      simp only [List.any_eq_false]
      intro p hp
      simp [hno p hp]
    have hyes' : yes_patterns.any (fun p => occurs p (normalize text)) = false := by
      simp only [List.any_eq_false]
      intro p hp
      simp [hyes p hp]
    simp [sponsorship_status, hno', hyes']

/-- C4 witness: a text containing both a rejection phrase and an availability
phrase classifies NO; a text with only an availability phrase classifies YES;
a neutral text classifies UNKNOWN. -/
theorem c4_witness :
    sponsorship_status (("We offer no sponsorship; visa sponsorship is mentioned only as policy").toList) = ("NO").toList ∧
    sponsorship_status (("visa sponsorship available").toList) = ("YES").toList ∧
    sponsorship_status (("tell us about yourself").toList) = ("UNKNOWN").toList := by
  refine ⟨?_, ?_, ?_⟩
  · exact (c4_sponsorship_order _).1
      ⟨("no sponsorship").toList, by decide, by decide⟩
  · exact (c4_sponsorship_order _).2.1 (by decide)
      ⟨("visa sponsorship").toList, by decide, by decide⟩
  · exact (c4_sponsorship_order _).2.2 (by decide) (by decide)

/-! ### Claim C6 : location gate -/

/-- C6 (amended): `location_ok` passes iff the configured list is empty, or
some configured location normalizes to a substring of the normalized posting
location, or both contain "remote".  In the spec scenario with
`["Texas", "Remote US"]`: "Austin, TX" FAILS (since "texas" is not a substring
of "austin, tx"), "Seattle, WA" fails, and "Remote" passes. -/
theorem c6_location_gate (job : Job) (locs : List Str) :
    (locs = [] → location_ok job locs = true) ∧
    (location_ok job locs = true ↔
      (locs = [] ∨
       (∃ x ∈ locs, occurs (normalize x) (normalize job.location) = true) ∨
       (occurs (("remote").toList) (normalize job.location) = true ∧
        ∃ x ∈ locs, occurs (("remote").toList) (normalize x) = true))) ∧
    location_ok ⟨[], [], ("Austin, TX").toList, [], [], [], [], []⟩
      [("Texas").toList, ("Remote US").toList] = false ∧
    location_ok ⟨[], [], ("Seattle, WA").toList, [], [], [], [], []⟩
      [("Texas").toList, ("Remote US").toList] = false ∧
    location_ok ⟨[], [], ("Remote").toList, [], [], [], [], []⟩
      [("Texas").toList, ("Remote US").toList] = true := by
  refine ⟨?_, ?_, by decide, by decide, by decide⟩
  · intro h
    simp [location_ok, h]
  · unfold location_ok
    rcases locs with _ | ⟨x, xs⟩
    · simp
    · rw [if_neg (by simp)]
      simp only [Bool.or_eq_true, Bool.and_eq_true, List.any_eq_true]
      constructor
      · intro h
        rcases h with h | h
        · exact Or.inr (Or.inl h)
        · exact Or.inr (Or.inr h)
      · intro h
        rcases h with h | h | h
        · simp at h
        · exact Or.inl h
        · exact Or.inr h

/-- C6 counterexample: the claim asserts that with locations
`["Texas", "Remote US"]` a posting located "Austin, TX" passes; the code
rejects it, because `normalize "Texas" = "texas"` is not a substring of
`"austin, tx"` and neither side matches the remote rule. -/
theorem c6_counterexample :
    location_ok ⟨[], [], ("Austin, TX").toList, [], [], [], [], []⟩
      [("Texas").toList, ("Remote US").toList] = false := by decide

/-- C6 witness: the amended gate theorem applied at the "Remote" posting. -/
theorem c6_witness :
    location_ok ⟨[], [], ("Remote").toList, [], [], [], [], []⟩
      [("Texas").toList, ("Remote US").toList] = true := by
  exact (c6_location_gate ⟨[], [], ("Remote").toList, [], [], [], [], []⟩
    [("Texas").toList, ("Remote US").toList]).2.2.2.2

/-! ### Claim C7 : intern-role title test -/

/-- C7: `is_intern_role` accepts a title iff its lowercase form contains a
positive intern marker as a substring and contains no negative-seniority
marker as a whole-word match; in particular "Maintenance Intern" is accepted
(no substring collision with the negative set). -/
theorem c7_is_intern_role (title : Str) :
    (is_intern_role title = true ↔
      ((∃ k ∈ INTERN_POSITIVE, occurs k (lowerL title) = true) ∧
       (∀ k ∈ INTERN_NEGATIVE, hasWordMatch k (lowerL title) = false))) ∧
    is_intern_role (("Maintenance Intern").toList) = true := by
  refine ⟨?_, by decide⟩
  unfold is_intern_role
  cases hp : INTERN_POSITIVE.any (fun k => occurs k (lowerL title)) with
  | false =>
    have hex : ¬∃ k ∈ INTERN_POSITIVE, occurs k (lowerL title) = true := by
      rw [← List.any_eq_true]
      simp [hp]
    simp [hp, hex]
  | true =>
    cases hn : INTERN_NEGATIVE.any (fun k => hasWordMatch k (lowerL title)) with
    | true =>
      obtain ⟨k, hk, hw⟩ := List.any_eq_true.1 hn
      refine iff_of_false (by simp [hp, hn]) ?_
      rintro ⟨-, hall⟩
      exact absurd (hall k hk) (by simp [hw])
    | false =>
      refine iff_of_true (by simp [hp, hn]) ?_
      refine ⟨List.any_eq_true.1 hp, ?_⟩
      intro k hk
      have := List.any_eq_false.1 hn k hk
      simpa using this

/-- C7 witness: instances of the characterization. -/
theorem c7_witness :
    is_intern_role (("Maintenance Intern").toList) = true ∧
    is_intern_role (("Senior ML Intern").toList) = false := by
  exact ⟨(c7_is_intern_role (("Maintenance Intern").toList)).2, by decide⟩

/-! ### Claim C9 : description "intern" shortcut -/

/-- C9: if the lowercased job description contains "intern", `is_internship`
returns true for every internship keyword list, including the empty one. -/
theorem c9_is_internship_description (job : Job) (kws : List Str)
    (h : occurs (("intern").toList) (lowerL job.description) = true) :
    is_internship job kws = true := by
  simp only [is_internship, Bool.or_eq_true]
  exact Or.inr h

/-- C9 witness: a job whose description alone says "Internship", with an empty
keyword list. -/
theorem c9_witness :
    occurs (("intern").toList)
      (lowerL (("Open Internship role").toList)) = true ∧
    is_internship ⟨[], [], [], [], [], [], [], ("Open Internship role").toList⟩ [] = true := by
  refine ⟨by decide, ?_⟩
  exact c9_is_internship_description _ [] (by decide)

/-! ### Claim C10 : stats update invariants -/

/-- C10: `update_stats` adds `jobs_found` to `total_jobs_found`, appends one
entry to `daily_counts` truncated to the last 90 entries (hence at most 90),
and leaves `jobs_approved`, `applications_generated`, `by_company` and
`by_source` unchanged. -/
theorem c10_update_stats (stats : Stats) (jf : Int) (src today : Str) :
    (update_stats stats jf src today).total_jobs_found =
      stats.total_jobs_found + jf ∧
    (update_stats stats jf src today).daily_counts =
      lastN 90 (stats.daily_counts ++ [⟨today, jf, src⟩]) ∧
    (update_stats stats jf src today).daily_counts.length ≤ 90 ∧
    (update_stats stats jf src today).jobs_approved = stats.jobs_approved ∧
    (update_stats stats jf src today).applications_generated =
      stats.applications_generated ∧
    (update_stats stats jf src today).by_company = stats.by_company ∧
    (update_stats stats jf src today).by_source = stats.by_source := by
  refine ⟨rfl, rfl, ?_, rfl, rfl, rfl, rfl⟩
  simp [update_stats, lastN]
  omega

/-! ### Claim C8 : parser error handling -/

theorem findTableTail_none {ls : List Str}
    (h : ∀ l ∈ ls, isHeaderLine l = false) : findTableTail ls = none := by
  induction ls with
  | nil => rfl
  | cons l rest ih =>
    simp only [findTableTail]
    rw [if_neg (by simp [h l (List.mem_cons_self l rest)])]
    exact ih fun x hx => h x (List.mem_cons_of_mem l hx)

/-- C8: the digest parser is total; when no line of the input both starts with
the delimiter and carries the Title/Company/Link header tokens it returns the
empty row list, and a delimiter-prefixed data row splitting into fewer than 7
columns is skipped while later rows still parse. -/
theorem c8_parser_robust (md : Str) (bad : Str) (rest : List Str) :
    ((pyLines md).all (fun l => !isHeaderLine l) = true →
      parse_jobs_from_markdown_table md = []) ∧
    (startsWithL (("|").toList) bad = true →
     (splitOnChar '|' (stripPipes bad)).length < 7 →
      parseDataRows (bad :: rest) = parseDataRows rest) := by
  constructor
  · intro h
    have hall : ∀ l ∈ pyLines md, isHeaderLine l = false := by
      intro l hl
      have := List.all_eq_true.1 h l hl
      simpa using this
    unfold parse_jobs_from_markdown_table
    rw [findTableTail_none hall]
  · intro hpipe hlen
    have hlen' : ((splitOnChar '|' (stripPipes bad)).map pyStrip).length < 7 := by
      simpa using hlen
    conv_lhs => rw [parseDataRows.eq_def]
    dsimp only
    rw [if_pos hpipe]
    rcases hc : (splitOnChar '|' (stripPipes bad)).map pyStrip with
      _ | ⟨a, _ | ⟨b, _ | ⟨c, _ | ⟨d, _ | ⟨e, _ | ⟨f, _ | ⟨g, t⟩⟩⟩⟩⟩⟩⟩ <;>
      (rw [hc] at hlen'
       try
         first
           | rfl
           | (simp only [List.length_cons] at hlen'
              omega))

/-- C8 witness: a table-free text parses to no rows, and a short
delimiter-prefixed row is skipped. -/
theorem c8_witness :
    parse_jobs_from_markdown_table (("hello, no table here").toList) = [] ∧
    parseDataRows [("| x |").toList] = [] := by
  constructor
  · exact (c8_parser_robust (("hello, no table here").toList) [] []).1 (by decide)
  · have h := (c8_parser_robust [] (("| x |").toList) []).2 (by decide) (by decide)
    rw [h]
    rfl

/-! ### Claim C5 : idempotency guard of the artifact workflow -/

theorem dropWhile_app (p : Char → Bool) (a b : Str) :
    List.dropWhile p (a ++ b) =
      if (List.dropWhile p a).isEmpty then List.dropWhile p b
      else List.dropWhile p a ++ b := by
  induction a with
  | nil => simp
  | cons c a ih =>
    by_cases h : p c = true
    · simpa [List.dropWhile_cons, h] using ih
    · simp [List.dropWhile_cons, h]

theorem trimR_app (s t : Str) :
    trimR (s ++ t) = if (trimR t).isEmpty then trimR s else s ++ trimR t := by
  have hrev : (List.dropWhile isPySpace t.reverse).reverse.isEmpty =
      (List.dropWhile isPySpace t.reverse).isEmpty := by
    rcases List.dropWhile isPySpace t.reverse with _ | ⟨c, cs⟩ <;> simp
  unfold trimR
  rw [List.reverse_append, dropWhile_app]
  by_cases h : (List.dropWhile isPySpace t.reverse).isEmpty = true
  · rw [if_pos h, if_pos (by rw [hrev]; exact h)]
  · rw [if_neg h, if_neg (by rw [hrev]; exact h), List.reverse_append]
    simp

theorem startsWith_pyStrip_marker (r : Str) :
    startsWithL MARKER (pyStrip (MARKER ++ r)) = true := by
  have h1 : trimL (MARKER ++ r) = MARKER ++ r := rfl
  unfold pyStrip
  rw [h1, trimR_app]
  split
  · decide
  · exact startsWithL_append_self MARKER (trimR r)

theorem pyStrip_joinSep_marker (xs : List Str) :
    startsWithL MARKER (pyStrip (joinSep ['\n'] (MARKER :: xs))) = true := by
  rcases xs with _ | ⟨y, ys⟩
  · decide
  · have h : joinSep ['\n'] (MARKER :: y :: ys) =
        MARKER ++ (['\n'] ++ joinSep ['\n'] (y :: ys)) := by
      simp [joinSep, List.append_assoc]
    rw [h]
    exact startsWith_pyStrip_marker _

theorem step3_main_eq (comments : List Str) (body : Str) (net : Str → Str)
    (now : Str) :
    step3_main comments body net now =
      if already_ran comments then []
      else if (parse_jobs_from_markdown_table body).isEmpty then [noTableComment]
      else [build_comment net now (parse_jobs_from_markdown_table body)] := rfl

/-- C5: if an existing comment on the trigger issue contains the marker, the
artifact workflow posts nothing; otherwise it posts exactly one comment, and
that comment begins with the marker; consequently a second invocation against
the comments left by a first invocation always posts nothing. -/
theorem c5_idempotent_guard (comments : List Str) (body : Str)
    (net : Str → Str) (now : Str) :
    (already_ran comments = true → step3_main comments body net now = []) ∧
    (already_ran comments = false →
      (step3_main comments body net now).length = 1 ∧
      ∀ c ∈ step3_main comments body net now, startsWithL MARKER c = true) ∧
    (∀ (body2 : Str) (net2 : Str → Str) (now2 : Str),
      step3_main (comments ++ step3_main comments body net now) body2 net2 now2
        = []) := by
  have h2 : already_ran comments = false →
      (step3_main comments body net now).length = 1 ∧
      ∀ c ∈ step3_main comments body net now, startsWithL MARKER c = true := by
    intro h
    rw [step3_main_eq, if_neg (by simp [h])]
    split
    · refine ⟨rfl, ?_⟩
      intro c hc
      simp only [List.mem_singleton] at hc
      subst hc
      exact startsWithL_append_self MARKER _
    · refine ⟨rfl, ?_⟩
      intro c hc
      simp only [List.mem_singleton] at hc
      subst hc
      exact pyStrip_joinSep_marker _
  refine ⟨?_, h2, ?_⟩
  · intro h
    rw [step3_main_eq, if_pos h]
  · intro body2 net2 now2
    cases h : already_ran comments with
    | false =>
      obtain ⟨hlen, hmem⟩ := h2 h
      have hra : already_ran (comments ++ step3_main comments body net now) = true := by
        rcases hl : step3_main comments body net now with _ | ⟨c, cs⟩
        · rw [hl] at hlen
          simp at hlen
        · have hc := hmem c (by rw [hl]; exact List.mem_cons_self _ _)
          unfold already_ran
          rw [List.any_append]
          simp [List.any_cons, occurs_of_startsWithL hc]
      rw [step3_main_eq, if_pos hra]
    | true =>
      have h0 : step3_main comments body net now = [] := by
        rw [step3_main_eq, if_pos h]
      rw [h0, List.append_nil, step3_main_eq, if_pos h]

/-- C5 witness: with no prior comments the guard is off, and the run posts
exactly one marker-led comment. -/
theorem c5_witness :
    already_ran [] = false ∧
    (step3_main [] (("x").toList) (fun _ => []) []).length = 1 := by
  refine ⟨by decide, ?_⟩
  exact ((c5_idempotent_guard [] (("x").toList) (fun _ => []) []).2.1 (by decide)).1

/-! ### Claim C1 : infrastructure — splitlines over rendered text -/

theorem splitlinesGo_cons_nobreak (c : Char) (h : isPyBreak c = false)
    (acc rest : Str) :
    splitlinesGo acc (c :: rest) = splitlinesGo (c :: acc) rest := by
  rw [splitlinesGo.eq_def]
  simp [h]

theorem splitlinesGo_newline (acc rest : Str) :
    splitlinesGo acc ('\n' :: rest) =
      acc.reverse :: (if rest.isEmpty then [] else splitlinesGo [] rest) := by
  rw [splitlinesGo.eq_def]
  simp [isPyBreak]

theorem splitlinesGo_chunk :
    ∀ (a : Str), noBreakChars a = true →
      ∀ (acc b : Str), splitlinesGo acc (a ++ b) = splitlinesGo (a.reverse ++ acc) b := by
  intro a
  induction a with
  | nil => intro h acc b; simp
  | cons c a ih =>
    intro h acc b
    have hc : isPyBreak c = false := by
      have := List.all_eq_true.1 h c (List.mem_cons_self c a)
      simpa using this
    have ha : noBreakChars a = true := by
      simp only [noBreakChars, List.all_cons, Bool.and_eq_true] at h
      exact h.2
    rw [List.cons_append, splitlinesGo_cons_nobreak c hc, ih ha]
    simp [List.append_assoc]

theorem splitlinesGo_line (a : Str) (h : noBreakChars a = true) (acc b : Str)
    (hb : b.isEmpty = false) :
    splitlinesGo acc (a ++ '\n' :: b) =
      (acc.reverse ++ a) :: splitlinesGo [] b := by
  rw [splitlinesGo_chunk a h, splitlinesGo_newline]
  simp [hb, List.reverse_append]

theorem splitlinesGo_last (a : Str) (h : noBreakChars a = true) (acc : Str) :
    splitlinesGo acc (a ++ ['\n']) = [acc.reverse ++ a] := by
  rw [splitlinesGo_chunk a h, splitlinesGo_newline]
  simp [List.reverse_append]

theorem splitlines_ne {s : Str} (h : s.isEmpty = false) :
    splitlines s = splitlinesGo [] s := by
  cases s with
  | nil => simp at h
  | cons c t => rfl

theorem noBreakChars_append (a b : Str) :
    noBreakChars (a ++ b) = (noBreakChars a && noBreakChars b) := by
  simp [noBreakChars, List.all_append]

/-! ### Claim C1 : infrastructure — trimming -/

theorem trimL_of_all {s : Str} (h : ∀ c ∈ s, isPySpace c = false) :
    trimL s = s := by
  cases s with
  | nil => rfl
  | cons c t =>
    unfold trimL
    rw [List.dropWhile_cons, if_neg (by simp [h c (List.mem_cons_self c t)])]

theorem trimR_of_all {s : Str} (h : ∀ c ∈ s, isPySpace c = false) :
    trimR s = s := by
  unfold trimR
  rw [show List.dropWhile isPySpace s.reverse = s.reverse from ?_, List.reverse_reverse]
  have h' : ∀ c ∈ s.reverse, isPySpace c = false := by
    intro c hc
    exact h c (List.mem_reverse.1 hc)
  cases hs : s.reverse with
  | nil => rfl
  | cons c t =>
    rw [List.dropWhile_cons,
      if_neg (by simp [h' c (by rw [hs]; exact List.mem_cons_self c t)])]

theorem pyStrip_of_all {s : Str} (h : ∀ c ∈ s, isPySpace c = false) :
    pyStrip s = s := by
  unfold pyStrip
  rw [trimL_of_all h, trimR_of_all h]

theorem pyStrip_cons_space {c : Char} (h : isPySpace c = true) (s : Str) :
    pyStrip (c :: s) = pyStrip s := by
  unfold pyStrip trimL
  rw [List.dropWhile_cons, if_pos h]

theorem trimR_single_space {d : Char} (h : isPySpace d = true) :
    trimR [d] = [] := by
  simp [trimR, List.dropWhile_cons, h]

theorem pyStrip_append_space {d : Char} (h : isPySpace d = true) (s : Str) :
    pyStrip (s ++ [d]) = pyStrip s := by
  unfold pyStrip trimL
  rw [dropWhile_app]
  by_cases h0 : (List.dropWhile isPySpace s).isEmpty = true
  · rw [if_pos h0]
    have h1 : List.dropWhile isPySpace [d] = [] := by
      simp [List.dropWhile_cons, h]
    have h2 : List.dropWhile isPySpace s = [] := by
      simpa using h0
    rw [h1, h2]
  · rw [if_neg h0, trimR_app, trimR_single_space h]
    simp

/-! ### Claim C1 : infrastructure — character classes of rendered cells -/

theorem digitChar_plain (d : Nat) :
    isPySpace (digitChar d) = false ∧ isPyBreak (digitChar d) = false ∧
    (digitChar d == '|') = false := by
  have h10 : d % 10 < 10 := Nat.mod_lt d (by norm_num)
  unfold digitChar
  generalize d % 10 = m at h10 ⊢
  interval_cases m <;> exact ⟨by decide, by decide, by decide⟩

theorem natStrAux_digit :
    ∀ (fuel n : Nat), ∀ c ∈ natStrAux fuel n, ∃ d, c = digitChar d := by
  intro fuel
  induction fuel with
  | zero => intro n c hc; simp [natStrAux] at hc
  | succ fuel ih =>
    intro n c hc
    unfold natStrAux at hc
    by_cases h : n < 10
    · rw [if_pos h] at hc
      simp only [List.mem_singleton] at hc
      exact ⟨n, hc⟩
    · rw [if_neg h] at hc
      rcases List.mem_append.1 hc with h1 | h1
      · exact ih (n / 10) c h1
      · simp only [List.mem_singleton] at h1
        exact ⟨n % 10, h1⟩

theorem natStr_no_space (n : Nat) : ∀ c ∈ natStr n, isPySpace c = false := by
  intro c hc
  obtain ⟨d, hd⟩ := natStrAux_digit (n + 1) n c hc
  rw [hd]
  exact (digitChar_plain d).1

theorem natStr_noBreak (n : Nat) : noBreakChars (natStr n) = true := by
  rw [noBreakChars, List.all_eq_true]
  intro c hc
  obtain ⟨d, hd⟩ := natStrAux_digit (n + 1) n c hc
  rw [hd]
  simp [(digitChar_plain d).2.1]

theorem natStr_no_pipe (n : Nat) : ∀ c ∈ natStr n, (c == '|') = false := by
  intro c hc
  obtain ⟨d, hd⟩ := natStrAux_digit (n + 1) n c hc
  rw [hd]
  exact (digitChar_plain d).2.2

theorem pyStrip_natStr (n : Nat) : pyStrip (natStr n) = natStr n :=
  pyStrip_of_all (natStr_no_space n)

theorem sanitizeCell_no_pipe (s : Str) :
    ∀ c ∈ sanitizeCell s, (c == '|') = false := by
  intro c hc
  obtain ⟨x, _, hx⟩ := List.mem_map.1 hc
  by_cases h : x == '|'
  · rw [← hx]; simp [h]
  · rw [← hx]; simp [h]

theorem sanitizeCell_noBreak {s : Str} (h : noBreakChars s = true) :
    noBreakChars (sanitizeCell s) = true := by
  rw [noBreakChars, List.all_eq_true]
  intro c hc
  obtain ⟨x, hxm, hx⟩ := List.mem_map.1 hc
  have hxb : isPyBreak x = false := by
    have := List.all_eq_true.1 h x hxm
    simpa using this
  by_cases hp : x == '|'
  · rw [← hx]
    simp [hp, isPyBreak]
  · rw [← hx]
    simp [hp, hxb]

theorem plainCell_noBreak {s : Str} (h : plainCell s = true) :
    noBreakChars s = true := by
  rw [noBreakChars, List.all_eq_true]
  intro c hc
  have := List.all_eq_true.1 h c hc
  simp only [Bool.and_eq_true, Bool.not_eq_true'] at this
  simp [this.2]

theorem plainCell_no_pipe {s : Str} (h : plainCell s = true) :
    ∀ c ∈ s, (c == '|') = false := by
  intro c hc
  have := List.all_eq_true.1 h c hc
  simp only [Bool.and_eq_true, Bool.not_eq_true'] at this
  exact this.1

theorem goodUrl_noBreak {u : Str} (h : goodUrl u = true) :
    noBreakChars u = true := by
  unfold goodUrl at h
  rw [Bool.or_eq_true] at h
  rcases h with h1 | h1
  · have : u = [] := by simpa using h1
    rw [this]; rfl
  · rw [Bool.and_eq_true] at h1
    rw [noBreakChars, List.all_eq_true]
    intro c hc
    have := List.all_eq_true.1 h1.1 c hc
    simp only [Bool.and_eq_true, Bool.not_eq_true'] at this
    simp [this.2]

theorem goodUrl_no_pipe {u : Str} (h : goodUrl u = true) :
    ∀ c ∈ u, (c == '|') = false := by
  intro c hc
  unfold goodUrl at h
  rw [Bool.or_eq_true] at h
  rcases h with h1 | h1
  · have : u = [] := by simpa using h1
    rw [this] at hc
    simp at hc
  · rw [Bool.and_eq_true] at h1
    have := List.all_eq_true.1 h1.1 c hc
    simp only [Bool.and_eq_true, Bool.not_eq_true'] at this
    exact this.1.2

theorem goodUrl_no_paren {u : Str} (h : goodUrl u = true)
    (hne : u.isEmpty = false) :
    ∀ c ∈ u, (c == ')') = false := by
  intro c hc
  unfold goodUrl at h
  rw [Bool.or_eq_true] at h
  rcases h with h1 | h1
  · rw [h1] at hne; simp at hne
  · rw [Bool.and_eq_true] at h1
    have := List.all_eq_true.1 h1.1 c hc
    simp only [Bool.and_eq_true, Bool.not_eq_true'] at this
    exact this.1.1

/-! ### Claim C1 : infrastructure — the table splitter -/

theorem splitOnChar_ne_nil (sep : Char) (s : Str) : splitOnChar sep s ≠ [] := by
  cases s with
  | nil => simp [splitOnChar]
  | cons c t =>
    unfold splitOnChar
    by_cases h : c == sep
    · simp [h]
    · rw [if_neg (by simpa using h)]
      rcases splitOnChar sep t with _ | ⟨x, xs⟩ <;> simp

theorem splitOnChar_nosep {sep : Char} {s : Str}
    (h : ∀ c ∈ s, (c == sep) = false) : splitOnChar sep s = [s] := by
  induction s with
  | nil => rfl
  | cons c t ih =>
    conv_lhs => rw [splitOnChar.eq_def]
    dsimp only
    rw [if_neg (by simp [h c (List.mem_cons_self c t)]),
      ih fun x hx => h x (List.mem_cons_of_mem c hx)]

theorem splitOnChar_app {sep : Char} {a : Str}
    (h : ∀ c ∈ a, (c == sep) = false) (b : Str) :
    splitOnChar sep (a ++ sep :: b) = a :: splitOnChar sep b := by
  induction a with
  | nil =>
    rw [List.nil_append]
    conv_lhs => rw [splitOnChar.eq_def]
    simp
  | cons c t ih =>
    rw [List.cons_append]
    conv_lhs => rw [splitOnChar.eq_def]
    dsimp only
    rw [if_neg (by simp [h c (List.mem_cons_self c t)]),
      ih fun x hx => h x (List.mem_cons_of_mem c hx)]

theorem takeWhile_app_all {p : Char → Bool} {a : Str}
    (h : ∀ c ∈ a, p c = true) (b : Str) :
    List.takeWhile p (a ++ b) = a ++ List.takeWhile p b := by
  induction a with
  | nil => simp
  | cons c t ih =>
    rw [List.cons_append, List.takeWhile_cons, if_pos (h c (List.mem_cons_self c t))]
    rw [ih fun x hx => h x (List.mem_cons_of_mem c hx)]
    rfl

/-! ### Claim C1 : infrastructure — data rows through the parser -/

theorem lit_pipe_space (x : Str) : ("| ").toList ++ x = '|' :: ' ' :: x := rfl

theorem lit_sep (x : Str) : (" | ").toList ++ x = ' ' :: '|' :: ' ' :: x := rfl

theorem lit_apply_sep (x : Str) :
    (" | [Apply](").toList ++ x = ' ' :: '|' :: ' ' :: (("[Apply](").toList ++ x) := rfl

theorem lit_close : (") |").toList = [')', ' ', '|'] := rfl

theorem stripPipes_shape (m : Str) :
    stripPipes ('|' :: ' ' :: (m ++ [' ', '|'])) = ' ' :: (m ++ [' ']) := by
  unfold stripPipes
  rw [List.dropWhile_cons, if_pos (by decide), List.dropWhile_cons,
    if_neg (by decide)]
  rw [show (' ' :: (m ++ [' ', '|'])).reverse = '|' :: ' ' :: (m.reverse ++ [' ']) from by
    simp]
  rw [List.dropWhile_cons, if_pos (by decide), List.dropWhile_cons,
    if_neg (by decide)]
  simp

theorem pyStrip_space_wrap (m : Str) :
    pyStrip (' ' :: (m ++ [' '])) = pyStrip m := by
  rw [pyStrip_cons_space (by decide), pyStrip_append_space (by decide)]

theorem trimR_concat_nospace {d : Char} (hd : isPySpace d = false) (s : Str) :
    trimR (s ++ [d]) = s ++ [d] := by
  unfold trimR
  rw [List.reverse_append]
  simp only [List.reverse_cons, List.reverse_nil, List.nil_append]
  rw [List.singleton_append, List.dropWhile_cons, if_neg (by simp [hd])]
  simp

theorem getLast?_app (a : Str) {b : Str} {c : Char} (h : b.getLast? = some c) :
    (a ++ b).getLast? = some c := by
  rw [List.getLast?_append, h]
  rfl

theorem trimR_of_last {s : Str} {c : Char} (h : s.getLast? = some c)
    (hc : isPySpace c = false) : trimR s = s := by
  have hne : s ≠ [] := by
    intro h0
    rw [h0] at h
    simp at h
  have hdl := List.dropLast_append_getLast hne
  have hlast : s.getLast hne = c := by
    have := List.getLast?_eq_getLast s hne
    rw [this] at h
    exact (Option.some_injective _ h).symm ▸ rfl
  conv_lhs => rw [← hdl]
  rw [hlast, trimR_concat_nospace hc]
  conv_rhs => rw [← hdl]
  rw [hlast]

theorem pyStrip_bracketCell (u : Str) :
    pyStrip (("[Apply](").toList ++ (u ++ [')'])) =
      ("[Apply](").toList ++ (u ++ [')']) := by
  unfold pyStrip
  rw [show trimL (("[Apply](").toList ++ (u ++ [')'])) =
      ("[Apply](").toList ++ (u ++ [')']) from rfl]
  exact trimR_of_last (getLast?_app _ (List.getLast?_concat u)) (by decide)

theorem no_pipe_wrap {m : Str} (hm : ∀ c ∈ m, (c == '|') = false) :
    ∀ c ∈ (' ' :: (m ++ [' '])), (c == '|') = false := by
  intro c hc
  rcases List.mem_cons.1 hc with h | h
  · rw [h]; decide
  · rcases List.mem_append.1 h with h | h
    · exact hm c h
    · simp only [List.mem_singleton] at h
      rw [h]; decide

theorem goodCand_fields {r : Cand} (h : goodCand r = true) :
    noBreakChars r.job.title = true ∧ noBreakChars r.job.company = true ∧
    noBreakChars r.job.source = true ∧ noBreakChars r.job.location = true ∧
    plainCell r.sponsor = true ∧ goodUrl r.job.url = true := by
  have h' := h
  simp only [goodCand, Bool.and_eq_true] at h'
  obtain ⟨⟨⟨⟨⟨h1, h2⟩, h3⟩, h4⟩, h5⟩, h6⟩ := h'
  exact ⟨h1, h2, h3, h4, h5, h6⟩

theorem rowCore_noBreak (r : Cand) (h : goodCand r = true) :
    noBreakChars (rowCore r) = true := by
  obtain ⟨h1, h2, h3, h4, h5, h6⟩ := goodCand_fields h
  simp only [rowCore, noBreakChars_append, Bool.and_eq_true]
  repeat' apply And.intro
  all_goals
    first
      | decide
      | exact natStr_noBreak _
      | exact sanitizeCell_noBreak h1
      | exact sanitizeCell_noBreak h2
      | exact sanitizeCell_noBreak h3
      | exact sanitizeCell_noBreak h4
      | exact plainCell_noBreak h5
      | exact goodUrl_noBreak h6

theorem row_cells (r : Cand) (h : goodCand r = true) :
    (splitOnChar '|' (stripPipes (rowCore r))).map pyStrip =
      [natStr r.score, pyStrip r.sponsor, pyStrip (sanitizeCell r.job.title),
       pyStrip (sanitizeCell r.job.company), pyStrip (sanitizeCell r.job.source),
       pyStrip (sanitizeCell r.job.location),
       ("[Apply](").toList ++ (r.job.url ++ [')'])] := by
  obtain ⟨h1, h2, h3, h4, h5, h6⟩ := goodCand_fields h
  rw [show rowCore r = '|' :: ' ' ::
      ((natStr r.score ++ (" | ").toList ++ r.sponsor ++ (" | ").toList ++
        sanitizeCell r.job.title ++ (" | ").toList ++
        sanitizeCell r.job.company ++ (" | ").toList ++
        sanitizeCell r.job.source ++ (" | ").toList ++
        sanitizeCell r.job.location ++ (" | [Apply](").toList ++
        r.job.url ++ [')']) ++ [' ', '|']) from by
    simp [rowCore, lit_pipe_space, lit_close, List.append_assoc]]
  rw [stripPipes_shape]
  rw [show (' ' :: ((natStr r.score ++ (" | ").toList ++ r.sponsor ++ (" | ").toList ++
        sanitizeCell r.job.title ++ (" | ").toList ++
        sanitizeCell r.job.company ++ (" | ").toList ++
        sanitizeCell r.job.source ++ (" | ").toList ++
        sanitizeCell r.job.location ++ (" | [Apply](").toList ++
        r.job.url ++ [')']) ++ [' ']) : Str) =
      (' ' :: (natStr r.score ++ [' '])) ++ '|' ::
      ((' ' :: (r.sponsor ++ [' '])) ++ '|' ::
      ((' ' :: (sanitizeCell r.job.title ++ [' '])) ++ '|' ::
      ((' ' :: (sanitizeCell r.job.company ++ [' '])) ++ '|' ::
      ((' ' :: (sanitizeCell r.job.source ++ [' '])) ++ '|' ::
      ((' ' :: (sanitizeCell r.job.location ++ [' '])) ++ '|' ::
      (' ' :: ((("[Apply](").toList ++ (r.job.url ++ [')'])) ++ [' '])))))))
      from by
    simp [lit_sep, lit_apply_sep, List.append_assoc]]
  rw [splitOnChar_app (no_pipe_wrap (natStr_no_pipe r.score))]
  rw [splitOnChar_app (no_pipe_wrap (plainCell_no_pipe h5))]
  rw [splitOnChar_app (no_pipe_wrap (sanitizeCell_no_pipe r.job.title))]
  rw [splitOnChar_app (no_pipe_wrap (sanitizeCell_no_pipe r.job.company))]
  rw [splitOnChar_app (no_pipe_wrap (sanitizeCell_no_pipe r.job.source))]
  rw [splitOnChar_app (no_pipe_wrap (sanitizeCell_no_pipe r.job.location))]
  have hlit : ∀ c ∈ ("[Apply](").toList, (c == '|') = false := by decide
  have hc7 : ∀ c ∈ (("[Apply](").toList ++ (r.job.url ++ [')'])),
      (c == '|') = false := by
    intro c hc
    rcases List.mem_append.1 hc with hm | hm
    · exact hlit c hm
    · rcases List.mem_append.1 hm with hm2 | hm2
      · exact goodUrl_no_pipe h6 c hm2
      · simp only [List.mem_singleton] at hm2
        rw [hm2]; decide
  rw [splitOnChar_nosep (no_pipe_wrap hc7)]
  simp only [List.map_cons, List.map_nil, pyStrip_space_wrap]
  rw [pyStrip_natStr, pyStrip_bracketCell]

/-! ### Claim C1 : infrastructure — the apply-link regex -/

theorem findUrl_skip (c : Char) (h : (c == '(') = false) (rest : Str) :
    findUrl (c :: rest) = findUrl rest := by
  rw [findUrl.eq_def]
  simp [h]

theorem findUrl_paren (rest : Str) :
    findUrl ('(' :: rest) =
      (match tryUrlAt rest with
       | some u => some u
       | none => findUrl rest) := by
  rw [findUrl.eq_def]
  simp

theorem drop7_http (x : Str) : (("http://").toList ++ x).drop 7 = x := rfl

theorem drop8_https (x : Str) : (("https://").toList ++ x).drop 8 = x := rfl

theorem urlTailCheck_ok (pre : Str) {t : Str} (hne : t ≠ [])
    (hpar : ∀ c ∈ t, (c == ')') = false) :
    urlTailCheck pre (t ++ [')']) = some (pre ++ t) := by
  have htake : List.takeWhile (fun c => !(c == ')')) (t ++ [')']) = t := by
    rw [takeWhile_app_all (fun c hc => by simp [hpar c hc]) [')']]
    simp [List.takeWhile_cons]
  have hemp : t.isEmpty = false := by
    cases t with
    | nil => exact absurd rfl hne
    | cons c cs => rfl
  unfold urlTailCheck
  rw [htake, if_neg (by simp [hemp]), List.drop_left]
  simp

theorem tryUrlAt_http {t : Str} (hne : t ≠ [])
    (hpar : ∀ c ∈ t, (c == ')') = false) :
    tryUrlAt (("http://").toList ++ (t ++ [')'])) =
      some (("http://").toList ++ t) := by
  have hs : startsWithL (("https://").toList)
      (("http://").toList ++ (t ++ [')'])) = false := rfl
  unfold tryUrlAt
  rw [if_neg (by rw [hs]; simp), if_pos (startsWithL_append_self _ _), drop7_http]
  exact urlTailCheck_ok _ hne hpar

theorem tryUrlAt_https {t : Str} (hne : t ≠ [])
    (hpar : ∀ c ∈ t, (c == ')') = false) :
    tryUrlAt (("https://").toList ++ (t ++ [')'])) =
      some (("https://").toList ++ t) := by
  unfold tryUrlAt
  rw [if_pos (startsWithL_append_self _ _), drop8_https]
  exact urlTailCheck_ok _ hne hpar

theorem findUrl_cell (u : Str) (hgood : goodUrl u = true) :
    findUrl (("[Apply](").toList ++ (u ++ [')'])) =
      (if u.isEmpty then none else some u) := by
  by_cases hu : u.isEmpty = true
  · have h0 : u = [] := by simpa using hu
    subst h0
    decide
  · rw [if_neg hu]
    rw [show (("[Apply](").toList ++ (u ++ [')'])) =
        '[' :: 'A' :: 'p' :: 'p' :: 'l' :: 'y' :: ']' :: '(' :: (u ++ [')'])
        from rfl]
    rw [findUrl_skip '[' (by decide), findUrl_skip 'A' (by decide),
      findUrl_skip 'p' (by decide), findUrl_skip 'p' (by decide),
      findUrl_skip 'l' (by decide), findUrl_skip 'y' (by decide),
      findUrl_skip ']' (by decide), findUrl_paren]
    unfold goodUrl at hgood
    rw [Bool.or_eq_true] at hgood
    rcases hgood with h1 | h1
    · exact absurd h1 hu
    · rw [Bool.and_eq_true] at h1
      obtain ⟨hall, hscheme⟩ := h1
      have hpar : ∀ c ∈ u, (c == ')') = false := by
        intro c hc
        have := List.all_eq_true.1 hall c hc
        simp only [Bool.and_eq_true, Bool.not_eq_true'] at this
        exact this.1.1
      rw [Bool.or_eq_true] at hscheme
      rcases hscheme with hs | hs
      · rw [Bool.and_eq_true] at hs
        obtain ⟨hsw, hta⟩ := hs
        obtain ⟨t, ht⟩ := startsWithL_exists hsw
        have htne : t ≠ [] := by
          intro h0
          rw [ht, h0] at hta
          exact absurd hta (by decide)
        have hpar' : ∀ c ∈ t, (c == ')') = false := by
          intro c hc
          exact hpar c (by rw [ht]; exact List.mem_append_right _ hc)
        rw [show u ++ [')'] = ("http://").toList ++ (t ++ [')']) from by
          rw [ht]; simp [List.append_assoc]]
        rw [tryUrlAt_http htne hpar']
        rw [ht]
      · rw [Bool.and_eq_true] at hs
        obtain ⟨hsw, hta⟩ := hs
        obtain ⟨t, ht⟩ := startsWithL_exists hsw
        have htne : t ≠ [] := by
          intro h0
          rw [ht, h0] at hta
          exact absurd hta (by decide)
        have hpar' : ∀ c ∈ t, (c == ')') = false := by
          intro c hc
          exact hpar c (by rw [ht]; exact List.mem_append_right _ hc)
        rw [show u ++ [')'] = ("https://").toList ++ (t ++ [')']) from by
          rw [ht]; simp [List.append_assoc]]
        rw [tryUrlAt_https htne hpar']
        rw [ht]

/-! ### Claim C1 : infrastructure — the data-row loop on rendered rows -/

theorem parseDataRows_stop {l : Str}
    (h : startsWithL (("|").toList) l = false) (rest : List Str) :
    parseDataRows (l :: rest) = [] := by
  conv_lhs => rw [parseDataRows.eq_def]
  dsimp only
  rw [if_neg (by rw [h]; simp)]

theorem parseDataRows_row (r : Cand) (h : goodCand r = true) (rest : List Str) :
    parseDataRows (rowCore r :: rest) = expectedRow r :: parseDataRows rest := by
  obtain ⟨-, -, -, -, -, h6⟩ := goodCand_fields h
  conv_lhs => rw [parseDataRows.eq_def]
  dsimp only
  rw [if_pos (show startsWithL (("|").toList) (rowCore r) = true from rfl)]
  rw [row_cells r h]
  dsimp only
  rw [findUrl_cell r.job.url h6]
  rfl

theorem parseDataRows_rows (rows : List Cand)
    (h : ∀ r ∈ rows, goodCand r = true) (tl : List Str) :
    parseDataRows (rows.map rowCore ++ tl) =
      rows.map expectedRow ++ parseDataRows tl := by
  induction rows with
  | nil => simp
  | cons r rest ih =>
    simp only [List.map_cons, List.cons_append]
    rw [parseDataRows_row r (h r (List.mem_cons_self r rest))]
    rw [ih fun x hx => h x (List.mem_cons_of_mem r hx)]

/-! ### Claim C1 : line structure of the rendered digest -/

theorem splitlinesGo_newline_cont (acc : Str) {rest : Str}
    (h : rest.isEmpty = false) :
    splitlinesGo acc ('\n' :: rest) = acc.reverse :: splitlinesGo [] rest := by
  rw [splitlinesGo_newline, h]
  simp

theorem isEmpty_app_right {b : Str} (h : b.isEmpty = false) (a : Str) :
    (a ++ b).isEmpty = false := by
  cases a with
  | nil => simpa using h
  | cons c t => rfl

theorem lit_l1 (x : Str) :
    ("# Daily AI Internship Digest\n\n").toList ++ x =
      ("# Daily AI Internship Digest").toList ++ '\n' :: '\n' :: x := rfl

theorem lit_gen_end (x : Str) :
    ("**\n\n").toList ++ x = '*' :: '*' :: '\n' :: '\n' :: x := rfl

theorem lit_fil_end (x : Str) :
    ("**, locations: **Remote US + Texas**, sponsorship: **reject if explicit NO; silent = review**\n\n").toList ++ x =
      ("**, locations: **Remote US + Texas**, sponsorship: **reject if explicit NO; silent = review**").toList ++ '\n' :: '\n' :: x := rfl

theorem lit_hr (x : Str) :
    ("---\n\n").toList ++ x = ("---").toList ++ '\n' :: '\n' :: x := rfl

theorem lit_hdr (x : Str) :
    ("| Score | Sponsorship | Title | Company | Source | Location | Link |\n").toList ++ x =
      ("| Score | Sponsorship | Title | Company | Source | Location | Link |").toList ++ '\n' :: x := rfl

theorem lit_sepline (x : Str) :
    ("|---:|:---:|---|---|---|---|---|\n").toList ++ x =
      ("|---:|:---:|---|---|---|---|---|").toList ++ '\n' :: x := rfl

theorem lit_gen_line (y x : Str) :
    ("Generated: **").toList ++ (y ++ ('*' :: '*' :: '\n' :: '\n' :: x)) =
      (("Generated: **").toList ++ (y ++ ['*', '*'])) ++ '\n' :: '\n' :: x := by
  simp [List.append_assoc]

theorem lit_fil_line (y z x : Str) :
    ("Filters: score ≥ **").toList ++ (y ++ (("**, max **").toList ++ (z ++
      (("**, locations: **Remote US + Texas**, sponsorship: **reject if explicit NO; silent = review**").toList ++ '\n' :: '\n' :: x)))) =
      (("Filters: score ≥ **").toList ++ (y ++ (("**, max **").toList ++ (z ++
        ("**, locations: **Remote US + Texas**, sponsorship: **reject if explicit NO; silent = review**").toList)))) ++ '\n' :: '\n' :: x := by
  simp [List.append_assoc]

theorem splitlinesGo_rowsLines (rows : List Cand)
    (h : ∀ r ∈ rows, goodCand r = true) (t : Str) (ht : t.isEmpty = false) :
    splitlinesGo [] ((rows.map rowLine).flatten ++ t) =
      rows.map rowCore ++ splitlinesGo [] t := by
  induction rows with
  | nil => simp
  | cons r rest ih =>
    simp only [List.map_cons, List.flatten_cons, List.append_assoc]
    rw [show rowLine r ++ ((rest.map rowLine).flatten ++ t) =
        rowCore r ++ '\n' :: ((rest.map rowLine).flatten ++ t) from by
      simp [rowLine, List.append_assoc]]
    rw [splitlinesGo_line (rowCore r) (rowCore_noBreak r (h r (List.mem_cons_self r rest))) []
      _ (isEmpty_app_right ht _)]
    rw [ih fun x hx => h x (List.mem_cons_of_mem r hx)]
    simp


theorem pyStrip_rowCore (r : Cand) : pyStrip (rowCore r) = rowCore r := by
  unfold pyStrip
  rw [show trimL (rowCore r) = rowCore r from rfl]
  exact trimR_of_last
    (getLast?_app _ (show (((") |").toList : Str)).getLast? = some '|' from rfl))
    (by decide)

theorem filter_keep {l : Str} (h : l.isEmpty = false) (rest : List Str) :
    List.filter (fun x => !x.isEmpty) (l :: rest) =
      l :: List.filter (fun x => !x.isEmpty) rest := by
  simp [List.filter_cons, h]

theorem filter_drop (rest : List Str) :
    List.filter (fun x => !x.isEmpty) ([] :: rest) =
      List.filter (fun x => !x.isEmpty) rest := rfl

set_option maxHeartbeats 2000000 in
theorem pyLines_digest (now : Str) (hnow : noBreakChars now = true)
    (minS maxR : Nat) (rows : List Cand)
    (hrows : ∀ r ∈ rows, goodCand r = true) :
    pyLines (build_digest_md now minS maxR rows) =
      [("# Daily AI Internship Digest").toList,
       ("Generated: **").toList ++ (now ++ ['*', '*']),
       ("Filters: score ≥ **").toList ++ (natStr minS ++ (("**, max **").toList ++ (natStr maxR ++
         ("**, locations: **Remote US + Texas**, sponsorship: **reject if explicit NO; silent = review**").toList))),
       ("---").toList,
       ("| Score | Sponsorship | Title | Company | Source | Location | Link |").toList,
       ("|---:|:---:|---|---|---|---|---|").toList] ++
      (rows.map rowCore ++
       [("---").toList, ("### Notes").toList,
        ("- **Sponsorship** is inferred from posting text. If it says **NO sponsorship / US citizen only / clearance required**, it is rejected.").toList,
        ("- If sponsorship is **silent**, it is marked **UNKNOWN** and kept for review.").toList]) := by
  have htrail : splitlinesGo []
      (("\n---\n\n").toList ++ (("### Notes\n").toList ++
        (("- **Sponsorship** is inferred from posting text. If it says **NO sponsorship / US citizen only / clearance required**, it is rejected.\n").toList ++
         ("- If sponsorship is **silent**, it is marked **UNKNOWN** and kept for review.\n").toList))) =
      [[], ("---").toList, [], ("### Notes").toList,
       ("- **Sponsorship** is inferred from posting text. If it says **NO sponsorship / US citizen only / clearance required**, it is rejected.").toList,
       ("- If sponsorship is **silent**, it is marked **UNKNOWN** and kept for review.").toList] := by
    decide
  have hgen : noBreakChars (("Generated: **").toList ++ (now ++ ['*', '*'])) = true := by
    rw [noBreakChars_append, noBreakChars_append, hnow]
    decide
  have hfil : noBreakChars (("Filters: score ≥ **").toList ++ (natStr minS ++
      (("**, max **").toList ++ (natStr maxR ++
        ("**, locations: **Remote US + Texas**, sponsorship: **reject if explicit NO; silent = review**").toList)))) = true := by
    rw [noBreakChars_append, noBreakChars_append, noBreakChars_append,
      noBreakChars_append, natStr_noBreak, natStr_noBreak]
    decide
  unfold pyLines build_digest_md
  simp only [List.append_assoc]
  rw [splitlines_ne (by rfl)]
  rw [lit_l1, lit_gen_end, lit_fil_end, lit_hr, lit_hdr, lit_sepline,
    lit_gen_line, lit_fil_line]
  rw [splitlinesGo_line, splitlinesGo_newline_cont,
    splitlinesGo_line, splitlinesGo_newline_cont,
    splitlinesGo_line, splitlinesGo_newline_cont,
    splitlinesGo_line, splitlinesGo_newline_cont,
    splitlinesGo_line, splitlinesGo_line,
    splitlinesGo_rowsLines rows hrows, htrail]
  all_goals
    try
      first
        | rfl
        | exact hgen
        | exact hfil
        | exact isEmpty_app_right (by rfl) _
        | decide
  have pnil : pyStrip ([] : Str) = [] := rfl
  have p1 : pyStrip (("# Daily AI Internship Digest").toList) =
      ("# Daily AI Internship Digest").toList := rfl
  have p2 : pyStrip (("Generated: **").toList ++ (now ++ ['*', '*'])) =
      ("Generated: **").toList ++ (now ++ ['*', '*']) := by
    unfold pyStrip
    rw [show trimL (("Generated: **").toList ++ (now ++ ['*', '*'])) =
        ("Generated: **").toList ++ (now ++ ['*', '*']) from rfl]
    exact trimR_of_last
      (getLast?_app _ (getLast?_app _
        (show (['*', '*'] : Str).getLast? = some '*' from rfl)))
      (by decide)
  have p3 : pyStrip (("Filters: score ≥ **").toList ++ (natStr minS ++
      (("**, max **").toList ++ (natStr maxR ++
        ("**, locations: **Remote US + Texas**, sponsorship: **reject if explicit NO; silent = review**").toList)))) =
      ("Filters: score ≥ **").toList ++ (natStr minS ++
      (("**, max **").toList ++ (natStr maxR ++
        ("**, locations: **Remote US + Texas**, sponsorship: **reject if explicit NO; silent = review**").toList))) := by
    unfold pyStrip
    rw [show trimL (("Filters: score ≥ **").toList ++ (natStr minS ++
        (("**, max **").toList ++ (natStr maxR ++
          ("**, locations: **Remote US + Texas**, sponsorship: **reject if explicit NO; silent = review**").toList)))) =
        ("Filters: score ≥ **").toList ++ (natStr minS ++
        (("**, max **").toList ++ (natStr maxR ++
          ("**, locations: **Remote US + Texas**, sponsorship: **reject if explicit NO; silent = review**").toList))) from rfl]
    exact trimR_of_last
      (getLast?_app _ (getLast?_app _ (getLast?_app _ (getLast?_app _
        (show ((("**, locations: **Remote US + Texas**, sponsorship: **reject if explicit NO; silent = review**").toList : Str)).getLast? = some '*' from rfl)))))
      (by decide)
  have p4 : pyStrip (("---").toList) = ("---").toList := rfl
  have p5 : pyStrip (("| Score | Sponsorship | Title | Company | Source | Location | Link |").toList) =
      ("| Score | Sponsorship | Title | Company | Source | Location | Link |").toList := rfl
  have p6 : pyStrip (("|---:|:---:|---|---|---|---|---|").toList) =
      ("|---:|:---:|---|---|---|---|---|").toList := rfl
  have hmrows : (rows.map rowCore).map pyStrip = rows.map rowCore := by
    rw [List.map_map]
    apply List.map_congr_left
    intro r hr
    exact pyStrip_rowCore r
  have p7 : pyStrip (("### Notes").toList) = ("### Notes").toList := rfl
  have p8 : pyStrip (("- **Sponsorship** is inferred from posting text. If it says **NO sponsorship / US citizen only / clearance required**, it is rejected.").toList) =
      ("- **Sponsorship** is inferred from posting text. If it says **NO sponsorship / US citizen only / clearance required**, it is rejected.").toList := rfl
  have p9 : pyStrip (("- If sponsorship is **silent**, it is marked **UNKNOWN** and kept for review.").toList) =
      ("- If sponsorship is **silent**, it is marked **UNKNOWN** and kept for review.").toList := rfl
  have hfrows : List.filter (fun x => !x.isEmpty) (rows.map rowCore) =
      rows.map rowCore := by
    refine List.filter_eq_self.2 fun a ha => ?_
    obtain ⟨r, -, hrc⟩ := List.mem_map.1 ha
    rw [← hrc]
    rfl
  have hft : List.filter (fun x => !x.isEmpty)
      [[], ("---").toList, [], ("### Notes").toList,
       ("- **Sponsorship** is inferred from posting text. If it says **NO sponsorship / US citizen only / clearance required**, it is rejected.").toList,
       ("- If sponsorship is **silent**, it is marked **UNKNOWN** and kept for review.").toList] =
      [("---").toList, ("### Notes").toList,
       ("- **Sponsorship** is inferred from posting text. If it says **NO sponsorship / US citizen only / clearance required**, it is rejected.").toList,
       ("- If sponsorship is **silent**, it is marked **UNKNOWN** and kept for review.").toList] := rfl
  simp only [List.reverse_nil, List.nil_append]
  simp only [List.map_cons, List.map_append, List.map_nil]
  simp only [pnil, p1, p2, p3, p4, p5, p6, p7, p8, p9, hmrows]
  rw [filter_keep, filter_drop, filter_keep, filter_drop, filter_keep,
    filter_drop, filter_keep, filter_drop, filter_keep, filter_keep,
    List.filter_append, hfrows, hft]
  all_goals rfl

theorem findTableTail_cons_neg {l : Str} (h : isHeaderLine l = false)
    (rest : List Str) : findTableTail (l :: rest) = findTableTail rest := by
  simp [findTableTail, h]

theorem findTableTail_cons_pos {l : Str} (h : isHeaderLine l = true)
    (rest : List Str) : findTableTail (l :: rest) = some (rest.drop 1) := by
  simp [findTableTail, h]

/-- C1 (amended): for every candidate list whose rendered fields survive the
wire format -- no line-break characters in title/company/source/location, no
`'|'` or break in the sponsorship cell, and a url that is empty or an
`http(s)://` url with nonempty remainder free of `')'`, `'|'` and breaks --
parsing the rendered digest recovers exactly one row per candidate, with
title, company, source and location equal to the rendered (`'|'`-sanitized)
field after whitespace trimming, the score as its decimal text, and the apply
url equal to the candidate url, absent exactly when the url is empty.
(`now` is the render timestamp; it may not contain line breaks.) -/
theorem c1_round_trip (now : Str) (hnow : noBreakChars now = true)
    (minS maxR : Nat) (rows : List Cand) (_hne : rows ≠ [])
    (hrows : ∀ r ∈ rows, goodCand r = true) :
    parse_jobs_from_markdown_table (build_digest_md now minS maxR rows) =
      rows.map expectedRow := by
  unfold parse_jobs_from_markdown_table
  rw [pyLines_digest now hnow minS maxR rows hrows]
  simp only [List.cons_append, List.nil_append]
  rw [findTableTail_cons_neg (by rfl), findTableTail_cons_neg (by rfl),
    findTableTail_cons_neg (by rfl), findTableTail_cons_neg (by rfl),
    findTableTail_cons_pos (by rfl)]
  simp only [List.drop_succ_cons, List.drop_zero]
  rw [parseDataRows_rows rows hrows]
  rw [show parseDataRows
      [("---").toList, ("### Notes").toList,
       ("- **Sponsorship** is inferred from posting text. If it says **NO sponsorship / US citizen only / clearance required**, it is rejected.").toList,
       ("- If sponsorship is **silent**, it is marked **UNKNOWN** and kept for review.").toList] = [] from rfl]
  simp

set_option maxHeartbeats 2000000 in
/-- C1 counterexample: a candidate whose url is the nonempty string "foo"
renders to a digest whose parse returns `apply_url = none`, although the
claim as stated requires the recovered apply-url to equal the candidate url
whenever the url is nonempty (the parser only extracts parenthesized
`http(s)://` links). -/
theorem c1_counterexample :
    (parse_jobs_from_markdown_table (build_digest_md
        (("2026-01-01 00:00 UTC").toList) 50 15
        [⟨⟨[], ("ML Intern").toList, ("Remote").toList, [], ("Acme").toList,
           ("Greenhouse").toList, ("foo").toList, []⟩, 80, ("YES").toList⟩])).map
      (fun r => r.apply_url) = [none] ∧
    ((("foo").toList : Str)).isEmpty = false := by
  constructor
  · decide
  · decide

set_option maxHeartbeats 2000000 in
/-- C1 witness: the amended round-trip theorem applied to a concrete
one-candidate list. -/
theorem c1_witness :
    ([⟨⟨[], ("ML Intern").toList, ("Remote").toList, [], ("Acme").toList,
        ("Greenhouse").toList, ("https://x.co/a").toList, ("d").toList⟩,
       80, ("YES").toList⟩] : List Cand) ≠ [] ∧
    parse_jobs_from_markdown_table (build_digest_md
        (("2026-01-01 00:00 UTC").toList) 50 15
        [⟨⟨[], ("ML Intern").toList, ("Remote").toList, [], ("Acme").toList,
           ("Greenhouse").toList, ("https://x.co/a").toList, ("d").toList⟩,
          80, ("YES").toList⟩]) =
      ([⟨⟨[], ("ML Intern").toList, ("Remote").toList, [], ("Acme").toList,
          ("Greenhouse").toList, ("https://x.co/a").toList, ("d").toList⟩,
         80, ("YES").toList⟩] : List Cand).map expectedRow := by
  constructor
  · decide
  · exact c1_round_trip _ (by decide) 50 15 _ (by decide) (by decide)

end JobSearch
